import Mathlib

/-!
Shallow embedding of src/server/models.py (Polytopia-Chess): the credential
hasher, the enumerated domain types, the Game session entity with its
start transition, and the TurnCounter bound mutator.

Modelling conventions:
* byte strings are `List Nat`;
* the key-derivation primitive `hashlib.pbkdf2_hmac('sha3-256', pw, salt,
  100_000)` is kept abstract: the functions take it as a parameter
  `kdf : Bytes -> Bytes -> Bytes` (password bytes, salt bytes);
* the randomness consumed by `os.urandom(32)` is made explicit as a salt
  argument whose length is 32;
* a Peewee model instance together with its persisted row is a `Session`
  pair: the in-memory `Game` plus the row last written by `save()`
  (`none` when never saved);
* Python exceptions are represented by the operation returning the
  untouched state together with the error message (`raise` in the source
  happens before any field mutation), or by `Option` for decode results;
* durations (IntervalField) and timestamps (DateTimeField) are integers.
-/

namespace PolytopiaChess

abbrev Bytes := List Nat

/-- `hmac.compare_digest` on byte strings: a constant-time equality test.
Its result is equality of the two byte strings (false on length mismatch,
without raising). -/
def compare_digest (a b : Bytes) : Bool :=
  a == b

/-- `hash_password` (models.py lines 18-22): draw a 32-byte salt, derive a
key from the password with the salt, return `salt + key`.  The salt drawn
by `os.urandom(32)` is an explicit argument. -/
def hash_password (kdf : Bytes → Bytes → Bytes) (password salt : Bytes) : Bytes :=
  salt ++ kdf password salt

/-- `check_password` (models.py lines 25-32): split the stored blob into
`hashed[:32]` and `hashed[32:]`, re-derive with the same algorithm, and
compare with `hmac.compare_digest`. -/
def check_password (kdf : Bytes → Bytes → Bytes) (password hashed : Bytes) : Bool :=
  let salt := hashed.take 32
  let key := hashed.drop 32
  let attempt_key := kdf password salt
  compare_digest key attempt_key

/-- `Winner` enum (models.py lines 79-85), `enum.auto` codes 1-4. -/
inductive Winner
  | GAME_NOT_COMPLETE
  | HOME
  | AWAY
  | DRAW
  deriving DecidableEq

/-- `Conclusion` enum (models.py lines 88-98), `enum.auto` codes 1-8. -/
inductive Conclusion
  | GAME_NOT_COMPLETE
  | CHECKMATE
  | RESIGN
  | TIME
  | STALEMATE
  | THREEFOLD_REPETITION
  | FIFTY_MOVE_RULE
  | AGREED_DRAW
  deriving DecidableEq

/-- `PieceType` enum (models.py lines 101-109), `enum.auto` codes 1-6. -/
inductive PieceType
  | PAWN
  | ROOK
  | KNIGHT
  | BISHOP
  | QUEEN
  | KING
  deriving DecidableEq

/-- `Side` enum (models.py lines 112-122), `enum.auto` codes 1-2. -/
inductive Side
  | HOME
  | AWAY
  deriving DecidableEq

/-- `Side.__invert__` (models.py lines 118-122): the other side. -/
def Side.invert : Side → Side
  | .HOME => .AWAY
  | .AWAY => .HOME

/-- The integer `.value` of a `Winner` member (`enum.auto` numbering). -/
def Winner.value : Winner → Int
  | .GAME_NOT_COMPLETE => 1
  | .HOME => 2
  | .AWAY => 3
  | .DRAW => 4

/-- The integer `.value` of a `Conclusion` member (`enum.auto` numbering). -/
def Conclusion.value : Conclusion → Int
  | .GAME_NOT_COMPLETE => 1
  | .CHECKMATE => 2
  | .RESIGN => 3
  | .TIME => 4
  | .STALEMATE => 5
  | .THREEFOLD_REPETITION => 6
  | .FIFTY_MOVE_RULE => 7
  | .AGREED_DRAW => 8

/-- The integer `.value` of a `PieceType` member (`enum.auto` numbering). -/
def PieceType.value : PieceType → Int
  | .PAWN => 1
  | .ROOK => 2
  | .KNIGHT => 3
  | .BISHOP => 4
  | .QUEEN => 5
  | .KING => 6

/-- The integer `.value` of a `Side` member (`enum.auto` numbering). -/
def Side.value : Side → Int
  | .HOME => 1
  | .AWAY => 2

/-- `EnumField.python_value` for `options = Winner` (models.py lines
134-137): `self.options(number)` looks the code up among the members and
raises `ValueError` (the Decode condition, here `none`) when no member has
that value. -/
def Winner.python_value (raw : Int) : Option Winner :=
  if raw = 1 then some .GAME_NOT_COMPLETE
  else if raw = 2 then some .HOME
  else if raw = 3 then some .AWAY
  else if raw = 4 then some .DRAW
  else none

/-- `EnumField.python_value` for `options = Conclusion`. -/
def Conclusion.python_value (raw : Int) : Option Conclusion :=
  if raw = 1 then some .GAME_NOT_COMPLETE
  else if raw = 2 then some .CHECKMATE
  else if raw = 3 then some .RESIGN
  else if raw = 4 then some .TIME
  else if raw = 5 then some .STALEMATE
  else if raw = 6 then some .THREEFOLD_REPETITION
  else if raw = 7 then some .FIFTY_MOVE_RULE
  else if raw = 8 then some .AGREED_DRAW
  else none

/-- `EnumField.python_value` for `options = PieceType`. -/
def PieceType.python_value (raw : Int) : Option PieceType :=
  if raw = 1 then some .PAWN
  else if raw = 2 then some .ROOK
  else if raw = 3 then some .KNIGHT
  else if raw = 4 then some .BISHOP
  else if raw = 5 then some .QUEEN
  else if raw = 6 then some .KING
  else none

/-- `EnumField.python_value` for `options = Side`. -/
def Side.python_value (raw : Int) : Option Side :=
  if raw = 1 then some .HOME
  else if raw = 2 then some .AWAY
  else none

/-- The `User` model (models.py lines 181-200).  Default values are the
Peewee field defaults. -/
structure User where
  username : String
  password_hash : Bytes
  email : String
  email_verified : Bool := false
  elo : Int := 1000
  avatar : Option Bytes := none
  created_at : Int
  deriving DecidableEq

/-- The `Game` model's fields (models.py lines 216-237).  Default values
are the Peewee field defaults; nullable fields are `Option`; `opened_at`
defaults to the creation time so it is a required argument here. -/
structure Game where
  host : User
  away : Option User := none
  current_turn : Side := .HOME
  _turn_number : Int := 1
  mode : Int := 1
  starting_time : Int
  time_per_turn : Int
  home_time : Option Int := none
  away_time : Option Int := none
  home_offering_draw : Bool := false
  away_offering_draw : Bool := false
  winner : Winner := .GAME_NOT_COMPLETE
  conclusion_type : Conclusion := .GAME_NOT_COMPLETE
  opened_at : Int
  last_turn : Option Int := none
  started_at : Option Int := none
  ended_at : Option Int := none
  deriving DecidableEq

/-- `Game.__init__` (models.py lines 239-246): after the base-model field
initialisation (the argument `g`, whatever field values were supplied),
unconditionally overwrite `home_time` and `away_time` with
`starting_time`. -/
def Game.init (g : Game) : Game :=
  { g with home_time := some g.starting_time, away_time := some g.starting_time }

/-- Constructing a brand-new game row: required fields supplied, every
other field at its Peewee default, then `Game.__init__` runs. -/
def game_new (host : User) (starting_time time_per_turn opened_at : Int) : Game :=
  Game.init { host := host, starting_time := starting_time,
              time_per_turn := time_per_turn, opened_at := opened_at }

/-- A model instance together with its persisted row: `mem` is the
in-memory `Game`, `db` the row written by the last `save()` (`none` when
never saved). -/
structure Session where
  mem : Game
  db : Option Game
  deriving DecidableEq

/-- A freshly constructed, not yet saved instance. -/
def Session.ofGame (g : Game) : Session :=
  { mem := g, db := none }

/-- `Game.start_game` (models.py lines 248-253): set `away`, stamp
`started_at` and `last_turn` with the two `datetime.now()` calls, then
`save()`.  There is no check on the current value of `away`. -/
def start_game (s : Session) (away : User) (now1 now2 : Int) : Session :=
  let g := { s.mem with away := some away,
                        started_at := some now1,
                        last_turn := some now2 }
  { mem := g, db := some g }

/-- `TurnCounter.__iadd__` (models.py lines 68-76): any `value` other
than 1 raises `ValueError` before touching the game, leaving every field
as it was; on `value = 1` the turn number is incremented, the current
turn side inverted, and the game saved.  The result is the state of the
session after the call together with the raised error message, if any. -/
def TurnCounter.iadd (s : Session) (value : Int) : Session × Option String :=
  if value ≠ 1 then
    (s, some "Cannot increment the turn counter by more than one.")
  else
    let g := { s.mem with _turn_number := s.mem._turn_number + 1,
                          current_turn := s.mem.current_turn.invert }
    ({ mem := g, db := some g }, none)

/-- `int(turn_counter)` / `TurnCounter.__int__` (models.py lines 59-62):
read the turn number without mutating. -/
def TurnCounter.toInt (s : Session) : Int :=
  s.mem._turn_number

/-- `N` successive `game.turn_number += 1` calls. -/
def advances (s : Session) : Nat → Session
  | 0 => s
  | n + 1 => advances (TurnCounter.iadd s 1).1 n

/-- Example users for concrete evaluations. -/
def alice : User := { username := "alice", password_hash := [], email := "a", created_at := 0 }

def bob : User := { username := "bob", password_hash := [], email := "b", created_at := 0 }

def carol : User := { username := "carol", password_hash := [], email := "c", created_at := 0 }

/-- A freshly created, unsaved session hosted by alice with a 600-second
clock and a 5-second increment. -/
def demo_session : Session := Session.ofGame (game_new alice 600 5 0)

/-- The demo session after `start_game(bob)` at times 3 and 4: its away
user is set. -/
def started_session : Session := start_game demo_session bob 3 4

/-! ## Helper lemmas -/

theorem Side.invert_invert (s : Side) : s.invert.invert = s := by
  cases s <;> rfl

theorem check_password_hash_eq (kdf : Bytes → Bytes → Bytes) (p p' salt : Bytes)
    (hsalt : salt.length = 32) :
    check_password kdf p' (hash_password kdf p salt) = (kdf p salt == kdf p' salt) := by
  unfold check_password hash_password compare_digest
  rw [List.take_left' hsalt, List.drop_left' hsalt]

theorem iadd_one_step (s : Session) :
    (TurnCounter.iadd s 1).1.mem._turn_number = s.mem._turn_number + 1 ∧
    (TurnCounter.iadd s 1).1.mem.current_turn = s.mem.current_turn.invert := by
  simp [TurnCounter.iadd]

theorem advances_general (n : Nat) : ∀ s : Session,
    (advances s n).mem._turn_number = s.mem._turn_number + n ∧
    (advances s n).mem.current_turn =
      (if n % 2 = 0 then s.mem.current_turn else s.mem.current_turn.invert) := by
  induction n with
  | zero => intro s; simp [advances]
  | succ n ih =>
    intro s
    obtain ⟨hstep1, hstep2⟩ := iadd_one_step s
    obtain ⟨h1, h2⟩ := ih (TurnCounter.iadd s 1).1
    constructor
    · simp only [advances, h1, hstep1]
      push_cast
      ring
    · simp only [advances, h2, hstep2]
      by_cases hn : n % 2 = 0
      · have hn1 : (n + 1) % 2 = 1 := by omega
        simp [hn, hn1]
      · have hn1 : (n + 1) % 2 = 0 := by omega
        simp [hn, hn1, Side.invert_invert]

/-! ## Claim theorems -/

/-- C1 (counterexample): `start_game` on a session whose away user is
already set (bob) does not fail and does mutate fields: it overwrites
`away` with the new user (carol). -/
theorem start_game_no_guard_cex :
    started_session.mem.away = some bob ∧
    (start_game started_session carol 7 8).mem.away = some carol ∧
    (start_game started_session carol 7 8).mem.away ≠ started_session.mem.away := by
  refine ⟨rfl, rfl, ?_⟩
  decide

/-- C1 (amended): calling `start_game` on a session whose away user is
already set does not fail: it overwrites `away` with the supplied user,
re-stamps `started_at` and `last_turn`, saves, and leaves every other
field unchanged. -/
theorem start_game_on_started (s : Session) (u u' : User) (t1 t2 : Int)
    (h : s.mem.away = some u) :
    (start_game s u' t1 t2).mem.away = some u' ∧
    (start_game s u' t1 t2).mem.started_at = some t1 ∧
    (start_game s u' t1 t2).mem.last_turn = some t2 ∧
    (start_game s u' t1 t2).db = some (start_game s u' t1 t2).mem ∧
    (start_game s u' t1 t2).mem.host = s.mem.host ∧
    (start_game s u' t1 t2).mem.current_turn = s.mem.current_turn ∧
    (start_game s u' t1 t2).mem._turn_number = s.mem._turn_number ∧
    (start_game s u' t1 t2).mem.mode = s.mem.mode ∧
    (start_game s u' t1 t2).mem.starting_time = s.mem.starting_time ∧
    (start_game s u' t1 t2).mem.time_per_turn = s.mem.time_per_turn ∧
    (start_game s u' t1 t2).mem.home_time = s.mem.home_time ∧
    (start_game s u' t1 t2).mem.away_time = s.mem.away_time ∧
    (start_game s u' t1 t2).mem.home_offering_draw = s.mem.home_offering_draw ∧
    (start_game s u' t1 t2).mem.away_offering_draw = s.mem.away_offering_draw ∧
    (start_game s u' t1 t2).mem.winner = s.mem.winner ∧
    (start_game s u' t1 t2).mem.conclusion_type = s.mem.conclusion_type ∧
    (start_game s u' t1 t2).mem.opened_at = s.mem.opened_at ∧
    (start_game s u' t1 t2).mem.ended_at = s.mem.ended_at :=
  ⟨rfl, rfl, rfl, rfl, rfl, rfl, rfl, rfl, rfl, rfl, rfl, rfl, rfl, rfl, rfl, rfl, rfl, rfl⟩

/-- C1 (witness for the amended theorem): applied to the started demo
session, whose away user is bob. -/
theorem start_game_on_started_witness :
    started_session.mem.away = some bob ∧
    (start_game started_session carol 7 8).mem.away = some carol :=
  ⟨rfl, (start_game_on_started started_session bob carol 7 8 rfl).1⟩

/-- C2: starting from a session at turn number 1 with current side HOME,
after N successful turn advances the turn number is 1 + N and the current
side is HOME when N is even and AWAY when N is odd. -/
theorem advances_from_start (s : Session) (N : Nat)
    (hturn : s.mem._turn_number = 1) (hside : s.mem.current_turn = Side.HOME) :
    (advances s N).mem._turn_number = 1 + N ∧
    (advances s N).mem.current_turn =
      (if N % 2 = 0 then Side.HOME else Side.AWAY) := by
  obtain ⟨h1, h2⟩ := advances_general N s
  constructor
  · rw [h1, hturn]
  · rw [h2, hside]
    rfl

/-- C2 (witness): three advances on the fresh demo session reach turn 4
with AWAY to move. -/
theorem advances_from_start_witness :
    (advances demo_session 3).mem._turn_number = 1 + 3 ∧
    (advances demo_session 3).mem.current_turn =
      (if 3 % 2 = 0 then Side.HOME else Side.AWAY) :=
  advances_from_start demo_session 3 rfl rfl

/-- C3: a turn advance by any value other than 1 raises the ValueError
(the InvalidArgument condition) and leaves the session exactly as it was:
the result state is the unchanged input session. -/
theorem iadd_rejects (s : Session) (value : Int) (h : value ≠ 1) :
    TurnCounter.iadd s value =
      (s, some "Cannot increment the turn counter by more than one.") := by
  simp [TurnCounter.iadd, h]

/-- C3 (witness): deltas 0, 2 and -1 are each rejected on the demo
session, which is returned unchanged with the error message. -/
theorem iadd_rejects_witness :
    TurnCounter.iadd demo_session 0 =
      (demo_session, some "Cannot increment the turn counter by more than one.") ∧
    TurnCounter.iadd demo_session 2 =
      (demo_session, some "Cannot increment the turn counter by more than one.") ∧
    TurnCounter.iadd demo_session (-1) =
      (demo_session, some "Cannot increment the turn counter by more than one.") :=
  ⟨iadd_rejects demo_session 0 (by decide),
   iadd_rejects demo_session 2 (by decide),
   iadd_rejects demo_session (-1) (by decide)⟩

/-- C7: a newly created game has home_time = away_time = starting_time,
turn number 1, current side HOME and no away user (open phase). -/
theorem game_new_initial_state (host : User) (st tp t : Int) :
    (game_new host st tp t).home_time = some st ∧
    (game_new host st tp t).away_time = some st ∧
    (game_new host st tp t)._turn_number = 1 ∧
    (game_new host st tp t).current_turn = Side.HOME ∧
    (game_new host st tp t).away = none :=
  ⟨rfl, rfl, rfl, rfl, rfl⟩

/-- C8: `start_game` on an open session (away unset) sets away to the
supplied user, stamps started_at and last_turn with non-null timestamps,
saves the session, and the session afterwards reads as in-progress (away
non-null). -/
theorem start_game_open (s : Session) (u : User) (t1 t2 : Int)
    (hopen : s.mem.away = none) :
    (start_game s u t1 t2).mem.away = some u ∧
    (start_game s u t1 t2).mem.started_at = some t1 ∧
    (start_game s u t1 t2).mem.started_at ≠ none ∧
    (start_game s u t1 t2).mem.last_turn = some t2 ∧
    (start_game s u t1 t2).mem.last_turn ≠ none ∧
    (start_game s u t1 t2).db = some (start_game s u t1 t2).mem ∧
    (start_game s u t1 t2).mem.away ≠ none :=
  ⟨rfl, rfl, by simp [start_game], rfl, by simp [start_game], rfl, by simp [start_game]⟩

/-- C8 (witness): starting the open demo session with bob. -/
theorem start_game_open_witness :
    demo_session.mem.away = none ∧
    (start_game demo_session bob 3 4).mem.away = some bob :=
  ⟨rfl, (start_game_open demo_session bob 3 4 rfl).1⟩

/-- C10: `Game.__init__` unconditionally overwrites home_time and
away_time with starting_time, whatever values were supplied for them, and
leaves every other supplied field value unchanged. -/
theorem game_init_frame (g : Game) :
    (Game.init g).home_time = some g.starting_time ∧
    (Game.init g).away_time = some g.starting_time ∧
    (Game.init g).host = g.host ∧
    (Game.init g).away = g.away ∧
    (Game.init g).current_turn = g.current_turn ∧
    (Game.init g)._turn_number = g._turn_number ∧
    (Game.init g).mode = g.mode ∧
    (Game.init g).starting_time = g.starting_time ∧
    (Game.init g).time_per_turn = g.time_per_turn ∧
    (Game.init g).home_offering_draw = g.home_offering_draw ∧
    (Game.init g).away_offering_draw = g.away_offering_draw ∧
    (Game.init g).winner = g.winner ∧
    (Game.init g).conclusion_type = g.conclusion_type ∧
    (Game.init g).opened_at = g.opened_at ∧
    (Game.init g).last_turn = g.last_turn ∧
    (Game.init g).started_at = g.started_at ∧
    (Game.init g).ended_at = g.ended_at :=
  ⟨rfl, rfl, rfl, rfl, rfl, rfl, rfl, rfl, rfl, rfl, rfl, rfl, rfl, rfl, rfl, rfl, rfl⟩

/-- C4: for any salt of the fixed 32-byte width and any key-derivation
function that is injective in the password at that salt (the idealisation
of PBKDF2-HMAC-SHA3-256 collision resistance), checking a password
against its own hash succeeds, and checking any different password
against it fails. -/
theorem check_password_roundtrip (kdf : Bytes → Bytes → Bytes) (p p' salt : Bytes)
    (hsalt : salt.length = 32)
    (hinj : Function.Injective (fun q => kdf q salt))
    (hne : p' ≠ p) :
    check_password kdf p (hash_password kdf p salt) = true ∧
    check_password kdf p' (hash_password kdf p salt) = false := by
  constructor
  · rw [check_password_hash_eq kdf p p salt hsalt]
    exact beq_self_eq_true (kdf p salt)
  · rw [check_password_hash_eq kdf p p' salt hsalt]
    exact beq_eq_false_iff_ne.mpr fun h => hne (hinj h.symm)

/-- C4 (witness): with the injective derivation `fun q _ => q`, a 32-byte
zero salt, password `[1]` and the different password `[2]`. -/
theorem check_password_roundtrip_witness :
    check_password (fun q _ => q) [1]
      (hash_password (fun q _ => q) [1] (List.replicate 32 0)) = true ∧
    check_password (fun q _ => q) [2]
      (hash_password (fun q _ => q) [1] (List.replicate 32 0)) = false :=
  check_password_roundtrip (fun q _ => q) [1] [2] (List.replicate 32 0)
    (by simp) (fun a b h => h) (by decide)

/-- C5 (counterexample): on a malformed stored blob (the empty blob,
shorter than salt width plus key width) the checker completes normally
and returns the Boolean false — the same result as a merely wrong
password — instead of failing with an error condition. -/
theorem check_password_short_blob_cex :
    check_password (fun _ _ => List.replicate 32 0) [7] [] = false := by
  decide

/-- C5 (amended): when the stored blob is shorter than the 32-byte salt
width plus the 32-byte key width, the checker silently returns false,
treating the malformed blob like a wrong password rather than failing
with an error. -/
theorem check_password_short_blob (kdf : Bytes → Bytes → Bytes) (p blob : Bytes)
    (hkdf : ∀ q s, (kdf q s).length = 32) (hshort : blob.length < 64) :
    check_password kdf p blob = false := by
  unfold check_password compare_digest
  refine beq_eq_false_iff_ne.mpr fun h => ?_
  have hlen := congrArg List.length h
  rw [List.length_drop, hkdf] at hlen
  omega

/-- C5 (witness for the amended theorem): a 3-byte blob is rejected as a
wrong password. -/
theorem check_password_short_blob_witness :
    check_password (fun _ _ => List.replicate 32 0) [7] [1, 2, 3] = false :=
  check_password_short_blob (fun _ _ => List.replicate 32 0) [7] [1, 2, 3]
    (fun _ _ => by simp) (by simp)

/-- C9: hashing the same password with two distinct 32-byte salts (two
runs of the salt generator) yields two different stored blobs, and both
blobs verify as true against the original password. -/
theorem hash_twice_distinct (kdf : Bytes → Bytes → Bytes) (p s1 s2 : Bytes)
    (h1 : s1.length = 32) (h2 : s2.length = 32) (hne : s1 ≠ s2) :
    hash_password kdf p s1 ≠ hash_password kdf p s2 ∧
    check_password kdf p (hash_password kdf p s1) = true ∧
    check_password kdf p (hash_password kdf p s2) = true := by
  refine ⟨fun h => hne ?_, ?_, ?_⟩
  · have := congrArg (List.take 32) h
    rwa [show hash_password kdf p s1 = s1 ++ kdf p s1 from rfl,
         show hash_password kdf p s2 = s2 ++ kdf p s2 from rfl,
         List.take_left' h1, List.take_left' h2] at this
  · rw [check_password_hash_eq kdf p p s1 h1]
    exact beq_self_eq_true (kdf p s1)
  · rw [check_password_hash_eq kdf p p s2 h2]
    exact beq_self_eq_true (kdf p s2)

/-- C9 (witness): the all-zero and all-five 32-byte salts. -/
theorem hash_twice_distinct_witness :
    hash_password (fun q _ => q) [1] (List.replicate 32 0) ≠
      hash_password (fun q _ => q) [1] (List.replicate 32 5) ∧
    check_password (fun q _ => q) [1]
      (hash_password (fun q _ => q) [1] (List.replicate 32 0)) = true ∧
    check_password (fun q _ => q) [1]
      (hash_password (fun q _ => q) [1] (List.replicate 32 5)) = true :=
  hash_twice_distinct (fun q _ => q) [1] (List.replicate 32 0) (List.replicate 32 5)
    (by simp) (by simp) (by decide)

theorem side_none_iff (raw : Int) :
    Side.python_value raw = none ↔ ∀ v : Side, Side.value v ≠ raw := by
  unfold Side.python_value
  split_ifs with h1 h2
  · subst h1; simp
    exact ⟨.HOME, rfl⟩
  · subst h2; simp
    exact ⟨.AWAY, rfl⟩
  · simp only [true_iff]
    intro v
    cases v <;> simp [Side.value] <;> omega

theorem winner_none_iff (raw : Int) :
    Winner.python_value raw = none ↔ ∀ v : Winner, Winner.value v ≠ raw := by
  unfold Winner.python_value
  split_ifs with h1 h2 h3 h4
  · subst h1; simp
    exact ⟨.GAME_NOT_COMPLETE, rfl⟩
  · subst h2; simp
    exact ⟨.HOME, rfl⟩
  · subst h3; simp
    exact ⟨.AWAY, rfl⟩
  · subst h4; simp
    exact ⟨.DRAW, rfl⟩
  · simp only [true_iff]
    intro v
    cases v <;> simp [Winner.value] <;> omega

theorem conclusion_none_iff (raw : Int) :
    Conclusion.python_value raw = none ↔ ∀ v : Conclusion, Conclusion.value v ≠ raw := by
  unfold Conclusion.python_value
  split_ifs with h1 h2 h3 h4 h5 h6 h7 h8
  · subst h1; simp
    exact ⟨.GAME_NOT_COMPLETE, rfl⟩
  · subst h2; simp
    exact ⟨.CHECKMATE, rfl⟩
  · subst h3; simp
    exact ⟨.RESIGN, rfl⟩
  · subst h4; simp
    exact ⟨.TIME, rfl⟩
  · subst h5; simp
    exact ⟨.STALEMATE, rfl⟩
  · subst h6; simp
    exact ⟨.THREEFOLD_REPETITION, rfl⟩
  · subst h7; simp
    exact ⟨.FIFTY_MOVE_RULE, rfl⟩
  · subst h8; simp
    exact ⟨.AGREED_DRAW, rfl⟩
  · simp only [true_iff]
    intro v
    cases v <;> simp [Conclusion.value] <;> omega

theorem piecetype_none_iff (raw : Int) :
    PieceType.python_value raw = none ↔ ∀ v : PieceType, PieceType.value v ≠ raw := by
  unfold PieceType.python_value
  split_ifs with h1 h2 h3 h4 h5 h6
  · subst h1; simp
    exact ⟨.PAWN, rfl⟩
  · subst h2; simp
    exact ⟨.ROOK, rfl⟩
  · subst h3; simp
    exact ⟨.KNIGHT, rfl⟩
  · subst h4; simp
    exact ⟨.BISHOP, rfl⟩
  · subst h5; simp
    exact ⟨.QUEEN, rfl⟩
  · subst h6; simp
    exact ⟨.KING, rfl⟩
  · simp only [true_iff]
    intro v
    cases v <;> simp [PieceType.value] <;> omega

/-- C6: for each enumerated domain type, decoding an integer code yields
the Decode failure (none) exactly when the code is outside the type's set
of member values — so every out-of-range code fails and no in-range code
or member is silently coerced, defaulted or dropped. -/
theorem enum_decode_out_of_range (raw : Int) :
    (Side.python_value raw = none ↔ ∀ v : Side, Side.value v ≠ raw) ∧
    (Winner.python_value raw = none ↔ ∀ v : Winner, Winner.value v ≠ raw) ∧
    (Conclusion.python_value raw = none ↔ ∀ v : Conclusion, Conclusion.value v ≠ raw) ∧
    (PieceType.python_value raw = none ↔ ∀ v : PieceType, PieceType.value v ≠ raw) :=
  ⟨side_none_iff raw, winner_none_iff raw, conclusion_none_iff raw, piecetype_none_iff raw⟩

/-- C6 (witness): the out-of-range codes 0 and 9 decode to the failure
result for every type. -/
theorem enum_decode_out_of_range_witness :
    Side.python_value 9 = none ∧ Winner.python_value 9 = none ∧
    Conclusion.python_value 9 = none ∧ PieceType.python_value 9 = none ∧
    Side.python_value 0 = none ∧ Winner.python_value 0 = none ∧
    Conclusion.python_value 0 = none ∧ PieceType.python_value 0 = none :=
  ⟨(enum_decode_out_of_range 9).1.mpr (fun v => by cases v <;> decide),
   (enum_decode_out_of_range 9).2.1.mpr (fun v => by cases v <;> decide),
   (enum_decode_out_of_range 9).2.2.1.mpr (fun v => by cases v <;> decide),
   (enum_decode_out_of_range 9).2.2.2.mpr (fun v => by cases v <;> decide),
   (enum_decode_out_of_range 0).1.mpr (fun v => by cases v <;> decide),
   (enum_decode_out_of_range 0).2.1.mpr (fun v => by cases v <;> decide),
   (enum_decode_out_of_range 0).2.2.1.mpr (fun v => by cases v <;> decide),
   (enum_decode_out_of_range 0).2.2.2.mpr (fun v => by cases v <;> decide)⟩

end PolytopiaChess
